import Mathlib

/-!
Shallow embedding of `src/ezi/debit.py` (python-ezi).

The module wraps SOAP calls to the Ezidebit payment gateway.  Remote
behaviour (the `suds` client construction and the service call) is modelled
by oracles passed to every operation: a `ConnectOutcome` for each
`suds.client.Client(wsdl)` construction and a function `Request → CallResult`
for the `client.service.<Op>(...)` call.  Exceptions are modelled by
`Except PyExc`.  Python's `int(...)` on strings is modelled for ASCII input
(whitespace stripping, an optional sign, digits with underscore grouping);
Python additionally accepts non-ASCII Unicode decimal digits, which no claim
exercises.
-/

set_option linter.unusedVariables false

deriving instance DecidableEq for Except

namespace Ezi

/-- Python exception values relevant to `debit.py`.  `urlError` stands for an
exception whose type is exactly `urllib.error.URLError`; `httpError` stands
for a strict subclass of it such as `urllib.error.HTTPError`; `valueError`
is the builtin `ValueError`; `ezidebitError` is the module's `EzidebitError`. -/
inductive PyExc where
  | urlError (msg : String)
  | httpError (msg : String)
  | valueError (msg : String)
  | ezidebitError (msg : String)
  | other (msg : String)
deriving DecidableEq, Repr

/-- `isinstance(e, urllib.error.URLError)` — true for the class and its
subclasses; this is what `except urllib.error.URLError` in `__enter__` tests. -/
def isURLErrorInstance : PyExc → Bool
  | .urlError _ => true
  | .httpError _ => true
  | _ => false

/-- `type(e) is urllib.error.URLError` — the exact-class identity test used
in `EzidebitClient.__exit__`. -/
def isURLErrorExact : PyExc → Bool
  | .urlError _ => true
  | _ => false

/-- Value of the `Data` attribute of a suds response: `None`, a string, or a
structured object. -/
inductive SudsVal where
  | pyNone
  | str (s : String)
  | obj (fields : List (String × String))
deriving DecidableEq, Repr

/-- Python truthiness of a `SudsVal` (`None` and the empty string are falsy;
a structured object is truthy). -/
def truthy : SudsVal → Bool
  | .pyNone => false
  | .str s => s ≠ ""
  | .obj _ => true

/-- Response envelope returned by every remote operation: the success payload
`Data` and the error text `ErrorMessage`. -/
structure EziResponse where
  Data : SudsVal
  ErrorMessage : String
deriving DecidableEq, Repr

/-- A value sent in a named SOAP field: the module sends strings and ints. -/
inductive FieldVal where
  | str (s : String)
  | int (n : Int)
deriving DecidableEq, Repr

/-- An outgoing SOAP request: the remote operation name and the named fields
in the order the source lists them. -/
structure Request where
  operation : String
  fields : List (String × FieldVal)
deriving DecidableEq, Repr

/-- Outcome of a `client.service.<Op>(...)` call: a response, or a raised
exception. -/
inductive CallResult where
  | ok (resp : EziResponse)
  | raises (e : PyExc)
deriving DecidableEq, Repr

/-- View a call outcome as an `Except` computation. -/
def CallResult.toExcept : CallResult → Except PyExc EziResponse
  | .ok resp => .ok resp
  | .raises e => .error e

/-- Outcome of a `suds.client.Client(wsdl)` construction. -/
inductive ConnectOutcome where
  | ok
  | raises (e : PyExc)
deriving DecidableEq, Repr

/-- `CONNECTION_ERROR_MSG` from `debit.py`. -/
def CONNECTION_ERROR_MSG : String := "Could not connect to Ezidebit payment service."

/-- `EzidebitClient.__enter__`: builds the suds client; an exception that is
an instance of `urllib.error.URLError` (subclasses included, as `except`
catches them) is replaced by `EzidebitError(CONNECTION_ERROR_MSG)`; any other
exception propagates. -/
def EzidebitClient_enter (connect : ConnectOutcome) : Except PyExc Unit :=
  match connect with
  | .ok => .ok ()
  | .raises e =>
    if isURLErrorInstance e then .error (.ezidebitError CONNECTION_ERROR_MSG)
    else .error e

/-- Semantics of `with EzidebitClient(wsdl) as client: body`.  If `__enter__`
fails its exception propagates (after the URLError conversion above).  If the
body fails, `__exit__(type, value, tb)` raises
`EzidebitError(CONNECTION_ERROR_MSG)` only when `type is urllib.error.URLError`
(exact class identity); otherwise it returns `None` and the body's exception
propagates unchanged. -/
def EzidebitClient_run {α : Type} (connect : ConnectOutcome)
    (body : Except PyExc α) : Except PyExc α :=
  match EzidebitClient_enter connect with
  | .error e => .error e
  | .ok _ =>
    match body with
    | .ok a => .ok a
    | .error e =>
      if isURLErrorExact e then .error (.ezidebitError CONNECTION_ERROR_MSG)
      else .error e

/-- Characters stripped by Python's `int(str)` (ASCII whitespace). -/
def isPySpace (c : Char) : Bool :=
  c = ' ' || c = '\t' || c = '\n' || c = '\x0d' || c = '\x0b' || c = '\x0c'

/-- Strip leading and trailing whitespace, as `int(str)` does. -/
def pyStrip (l : List Char) : List Char :=
  ((l.dropWhile isPySpace).reverse.dropWhile isPySpace).reverse

/-- After the first digit of an `int` literal: digits, with single
underscores allowed only between digits. -/
def digitsTail : List Char → Bool
  | [] => true
  | c :: rest =>
    if c = '_' then
      match rest with
      | [] => false
      | d :: rest2 => d.isDigit && digitsTail rest2
    else c.isDigit && digitsTail rest

/-- The digit part of an `int` literal: nonempty, starts with a digit,
underscore grouping as in Python. -/
def pyDigits : List Char → Bool
  | [] => false
  | c :: rest => c.isDigit && digitsTail rest

/-- Decimal value of a list of ASCII digits. -/
def digitsVal (l : List Char) : Nat :=
  l.foldl (fun n c => 10 * n + (c.toNat - 48)) 0

/-- Body of the `int` literal after stripping: one optional sign, then a
nonempty digit run with underscore grouping. -/
def pyIntCore : List Char → Option Int
  | [] => none
  | c :: rest =>
    if c = '-' then
      if pyDigits rest then
        some (-(digitsVal (rest.filter (fun x => x != '_')) : Int))
      else none
    else if c = '+' then
      if pyDigits rest then
        some ((digitsVal (rest.filter (fun x => x != '_')) : Int))
      else none
    else
      if pyDigits (c :: rest) then
        some ((digitsVal ((c :: rest).filter (fun x => x != '_')) : Int))
      else none

/-- Python's `int(s)` on a string: strips whitespace, allows one optional
sign, then a nonempty digit run with underscore grouping; `none` models the
`ValueError` that `int` raises otherwise. -/
def pyInt (l : List Char) : Option Int :=
  pyIntCore (pyStrip l)

/-- Python's `s.split(sep)` for a one-character separator: splits at every
occurrence, keeping empty pieces (`''.split('/') == ['']`). -/
def splitOnChar (sep : Char) : List Char → List (List Char)
  | [] => [[]]
  | x :: xs =>
    if x = sep then [] :: splitOnChar sep xs
    else
      match splitOnChar sep xs with
      | [] => [[x]]
      | h :: t => (x :: h) :: t

/-- Handling of the pieces that `card_expiry.split('/')` yields: tuple
unpacking raises a `ValueError` unless there are exactly two parts, then
`month = int(month)` and `year = int('20' + year)` each may raise one. -/
def parse_card_expiry_parts : List (List Char) → Except PyExc (Int × Int)
  | [m, y] =>
    match pyInt m with
    | none =>
      .error (.valueError ("invalid literal for int with base 10: " ++ String.mk m))
    | some month =>
      match pyInt ('2' :: '0' :: y) with
      | none =>
        .error (.valueError ("invalid literal for int with base 10: " ++
          String.mk ('2' :: '0' :: y)))
      | some year => .ok (month, year)
  | parts =>
    if parts.length < 2 then
      .error (.valueError "not enough values to unpack (expected 2)")
    else
      .error (.valueError "too many values to unpack (expected 2)")

/-- The card-expiry code shared by `add_card_debit` and
`edit_customer_credit_card`:
`(month, year) = card_expiry.split('/')` (a `ValueError` unless exactly two
parts), `month = int(month)`, `year = int('20' + year)`. -/
def parse_card_expiry (card_expiry : String) : Except PyExc (Int × Int) :=
  parse_card_expiry_parts (splitOnChar '/' card_expiry.data)

/-- The caller-supplied user object: the attributes `debit.py` reads. -/
structure User where
  username : String
  last_name : String
  first_name : String
  email : String
deriving DecidableEq, Repr

/-- Fields of the `GetCustomerDetails` request, in source order. -/
def get_customer_details_request (user_id key : String) : Request :=
  { operation := "GetCustomerDetails"
    fields :=
      [("DigitalKey", .str key),
       ("EziDebitCustomerID", .str ""),
       ("YourSystemReference", .str user_id)] }

/-- Fields of the `AddBankDebit` request, in source order. -/
def add_bank_debit_request (user : User) (payment_ref : String) (cents : Int)
    (due_date acct_name bsb acct_number key : String) : Request :=
  { operation := "AddBankDebit"
    fields :=
      [("DigitalKey", .str key),
       ("YourSystemReference", .str user.username),
       ("YourGeneralReference", .str ""),
       ("LastName", .str user.last_name),
       ("FirstName", .str user.first_name),
       ("EmailAddress", .str user.email),
       ("MobilePhoneNumber", .str ""),
       ("PaymentReference", .str payment_ref),
       ("BankAccountName", .str acct_name),
       ("BankAccountBSB", .str bsb),
       ("BankAccountNumber", .str acct_number),
       ("PaymentAmountInCents", .int cents),
       ("DebitDate", .str due_date),
       ("SmsPaymentReminder", .str "NO"),
       ("SmsFailedNotification", .str "NO"),
       ("SmsExpiredCard", .str "NO")] }

/-- Fields of the `AddCardDebit` request, in source order, taking the parsed
expiry month and year. -/
def add_card_debit_request (user : User) (payment_ref : String) (cents : Int)
    (due_date card_name card_number : String) (month year : Int)
    (key : String) : Request :=
  { operation := "AddCardDebit"
    fields :=
      [("DigitalKey", .str key),
       ("YourSystemReference", .str user.username),
       ("YourGeneralReference", .str ""),
       ("LastName", .str user.last_name),
       ("FirstName", .str user.first_name),
       ("EmailAddress", .str user.email),
       ("MobilePhoneNumber", .str ""),
       ("PaymentReference", .str payment_ref),
       ("NameOnCreditCard", .str card_name),
       ("CreditCardNumber", .str card_number),
       ("CreditCardExpiryYear", .int year),
       ("CreditCardExpiryMonth", .int month),
       ("PaymentAmountInCents", .int cents),
       ("DebitDate", .str due_date),
       ("SmsPaymentReminder", .str "NO"),
       ("SmsFailedNotification", .str "NO"),
       ("SmsExpiredCard", .str "NO")] }

/-- Fields of the `AddPayment` request, in source order. -/
def add_payment_request (user : User) (payment_ref : String) (cents : Int)
    (due_date key : String) : Request :=
  { operation := "AddPayment"
    fields :=
      [("DigitalKey", .str key),
       ("EziDebitCustomerID", .str ""),
       ("YourSystemReference", .str user.username),
       ("DebitDate", .str due_date),
       ("PaymentAmountInCents", .int cents),
       ("PaymentReference", .str payment_ref)] }

/-- Fields of the `ClearSchedule` request, in source order. -/
def clear_schedule_request (ezi_id key : String) : Request :=
  { operation := "ClearSchedule"
    fields :=
      [("DigitalKey", .str key),
       ("EziDebitCustomerID", .str ezi_id),
       ("YourSystemReference", .str ""),
       ("KeepManualPayments", .str "NO")] }

/-- Fields of the `EditCustomerBankAccount` request, in source order. -/
def edit_customer_bank_account_request (user_id acct_name bsb acct_number key
    update_by : String) : Request :=
  { operation := "EditCustomerBankAccount"
    fields :=
      [("DigitalKey", .str key),
       ("EziDebitCustomerID", .str ""),
       ("BankAccountName", .str acct_name),
       ("BankAccountBSB", .str bsb),
       ("BankAccountNumber", .str acct_number),
       ("YourSystemReference", .str user_id),
       ("Reactivate", .str "YES"),
       ("Username", .str update_by)] }

/-- Fields of the `EditCustomerCreditCard` request, in source order, taking
the parsed expiry month and year. -/
def edit_customer_credit_card_request (user_id card_name card_number : String)
    (month year : Int) (key update_by : String) : Request :=
  { operation := "EditCustomerCreditCard"
    fields :=
      [("DigitalKey", .str key),
       ("EziDebitCustomerID", .str ""),
       ("NameOnCreditCard", .str card_name),
       ("CreditCardNumber", .str card_number),
       ("CreditCardExpiryYear", .int year),
       ("CreditCardExpiryMonth", .int month),
       ("YourSystemReference", .str user_id),
       ("Reactivate", .str "YES"),
       ("Username", .str update_by)] }

/-- `get_customer_details(user_id, wsdl_pci, key)`: issues
`GetCustomerDetails` inside the context manager; raises
`EzidebitError(details.ErrorMessage)` when `details.Data` is falsy, else
returns `details.Data`. -/
def get_customer_details (user_id wsdl_pci key : String)
    (connect : ConnectOutcome) (service : Request → CallResult) :
    Except PyExc SudsVal :=
  match EzidebitClient_run connect
      (CallResult.toExcept (service (get_customer_details_request user_id key))) with
  | .error e => .error e
  | .ok details =>
    if truthy details.Data then .ok details.Data
    else .error (.ezidebitError details.ErrorMessage)

/-- `add_bank_debit(...)`: issues `AddBankDebit` inside the context manager;
raises on falsy `Data`, otherwise returns nothing. -/
def add_bank_debit (user : User) (payment_ref : String) (cents : Int)
    (due_date acct_name bsb acct_number wsdl_pci key : String)
    (connect : ConnectOutcome) (service : Request → CallResult) :
    Except PyExc Unit :=
  match EzidebitClient_run connect
      (CallResult.toExcept (service
        (add_bank_debit_request user payment_ref cents due_date acct_name bsb
          acct_number key))) with
  | .error e => .error e
  | .ok details =>
    if truthy details.Data then .ok ()
    else .error (.ezidebitError details.ErrorMessage)

/-- `add_card_debit(...)`: parses `card_expiry` before entering the context
manager, then issues `AddCardDebit`; raises on falsy `Data`, otherwise
returns nothing. -/
def add_card_debit (user : User) (payment_ref : String) (cents : Int)
    (due_date card_name card_number card_expiry wsdl_pci key : String)
    (connect : ConnectOutcome) (service : Request → CallResult) :
    Except PyExc Unit :=
  match parse_card_expiry card_expiry with
  | .error e => .error e
  | .ok (month, year) =>
    match EzidebitClient_run connect
        (CallResult.toExcept (service
          (add_card_debit_request user payment_ref cents due_date card_name
            card_number month year key))) with
    | .error e => .error e
    | .ok details =>
      if truthy details.Data then .ok ()
      else .error (.ezidebitError details.ErrorMessage)

/-- `add_payment(...)`: builds a second suds client inside the context
manager body (so a `URLError` there is seen by `__exit__`, not by
`__enter__`), then issues `AddPayment`; raises on falsy `Data`. -/
def add_payment (user : User) (payment_ref : String) (cents : Int)
    (due_date wsdl_nonpci key : String)
    (connect connect2 : ConnectOutcome) (service : Request → CallResult) :
    Except PyExc Unit :=
  match EzidebitClient_run connect
      (match connect2 with
       | .raises e => .error e
       | .ok => CallResult.toExcept (service
           (add_payment_request user payment_ref cents due_date key))) with
  | .error e => .error e
  | .ok details =>
    if truthy details.Data then .ok ()
    else .error (.ezidebitError details.ErrorMessage)

/-- `clear_schedule(ezi_id, wsdl_nonpci, key)`: builds a second suds client
inside the body, then issues `ClearSchedule`; raises on falsy `Data`. -/
def clear_schedule (ezi_id wsdl_nonpci key : String)
    (connect connect2 : ConnectOutcome) (service : Request → CallResult) :
    Except PyExc Unit :=
  match EzidebitClient_run connect
      (match connect2 with
       | .raises e => .error e
       | .ok => CallResult.toExcept (service
           (clear_schedule_request ezi_id key))) with
  | .error e => .error e
  | .ok details =>
    if truthy details.Data then .ok ()
    else .error (.ezidebitError details.ErrorMessage)

/-- `edit_customer_bank_account(...)`: builds a second suds client inside
the body, then issues `EditCustomerBankAccount`; raises on falsy `Data`. -/
def edit_customer_bank_account (user_id acct_name bsb acct_number wsdl_pci key
    update_by : String)
    (connect connect2 : ConnectOutcome) (service : Request → CallResult) :
    Except PyExc Unit :=
  match EzidebitClient_run connect
      (match connect2 with
       | .raises e => .error e
       | .ok => CallResult.toExcept (service
           (edit_customer_bank_account_request user_id acct_name bsb
             acct_number key update_by))) with
  | .error e => .error e
  | .ok details =>
    if truthy details.Data then .ok ()
    else .error (.ezidebitError details.ErrorMessage)

/-- `edit_customer_credit_card(...)`: parses `card_expiry` before entering
the context manager, builds a second suds client inside the body, then
issues `EditCustomerCreditCard`; raises on falsy `Data`. -/
def edit_customer_credit_card (user_id card_name card_number card_expiry
    wsdl_pci key update_by : String)
    (connect connect2 : ConnectOutcome) (service : Request → CallResult) :
    Except PyExc Unit :=
  match parse_card_expiry card_expiry with
  | .error e => .error e
  | .ok (month, year) =>
    match EzidebitClient_run connect
        (match connect2 with
         | .raises e => .error e
         | .ok => CallResult.toExcept (service
             (edit_customer_credit_card_request user_id card_name card_number
               month year key update_by))) with
    | .error e => .error e
    | .ok details =>
      if truthy details.Data then .ok ()
      else .error (.ezidebitError details.ErrorMessage)

/-! Helper lemmas about the model of Python's `int` and `split`. -/

theorem digit_ne {c x : Char} (h : c.isDigit = true) (hx : x.isDigit = false) :
    ¬(c = x) := by
  intro he
  rw [he] at h
  rw [h] at hx
  exact absurd hx (by decide)

theorem not_space_of_digit {c : Char} (h : c.isDigit = true) :
    isPySpace c = false := by
  by_contra hs
  rw [Bool.not_eq_false] at hs
  unfold isPySpace at hs
  simp only [Bool.or_eq_true, decide_eq_true_eq] at hs
  rcases hs with ((((h1 | h1) | h1) | h1) | h1) | h1 <;> subst h1 <;>
    exact absurd h (by decide)

theorem dropWhile_eq_self_of {p : Char → Bool} {l : List Char}
    (h : ∀ c ∈ l, p c = false) : l.dropWhile p = l := by
  cases l with
  | nil => rfl
  | cons c rest => simp [List.dropWhile_cons, h c (List.mem_cons_self c rest)]

theorem pyStrip_of_digits {l : List Char} (h : l.all Char.isDigit = true) :
    pyStrip l = l := by
  rw [List.all_eq_true] at h
  have h1 : ∀ c ∈ l, isPySpace c = false := fun c hc => not_space_of_digit (h c hc)
  have h2 : ∀ c ∈ l.reverse, isPySpace c = false := fun c hc =>
    h1 c (List.mem_reverse.mp hc)
  unfold pyStrip
  rw [dropWhile_eq_self_of h1, dropWhile_eq_self_of h2, List.reverse_reverse]

theorem digitsTail_of_digits : ∀ {l : List Char},
    l.all Char.isDigit = true → digitsTail l = true := by
  intro l
  induction l with
  | nil => intro _; rfl
  | cons c rest ih =>
    intro h
    rw [List.all_cons, Bool.and_eq_true] at h
    have hc : ¬(c = '_') := digit_ne h.1 (by decide)
    rw [digitsTail.eq_def]
    simp only [if_neg hc, h.1, ih h.2, Bool.and_self]

theorem pyDigits_of_digits {l : List Char} (h1 : l ≠ [])
    (h2 : l.all Char.isDigit = true) : pyDigits l = true := by
  cases l with
  | nil => exact absurd rfl h1
  | cons c rest =>
    rw [List.all_cons, Bool.and_eq_true] at h2
    simp [pyDigits, h2.1, digitsTail_of_digits h2.2]

theorem filter_of_digits : ∀ {l : List Char},
    l.all Char.isDigit = true → l.filter (fun x => x != '_') = l := by
  intro l
  induction l with
  | nil => intro _; rfl
  | cons c rest ih =>
    intro h
    rw [List.all_cons, Bool.and_eq_true] at h
    have hc : (c != '_') = true := by
      rw [bne_iff_ne]
      exact digit_ne h.1 (by decide)
    simp [List.filter_cons, hc, ih h.2]

theorem pyInt_of_digits {l : List Char} (h1 : l ≠ [])
    (h2 : l.all Char.isDigit = true) :
    pyInt l = some ((digitsVal l : Int)) := by
  unfold pyInt
  rw [pyStrip_of_digits h2]
  cases l with
  | nil => exact absurd rfl h1
  | cons c rest =>
    have hall := h2
    rw [List.all_cons, Bool.and_eq_true] at h2
    have hneg : ¬(c = '-') := digit_ne h2.1 (by decide)
    have hpos : ¬(c = '+') := digit_ne h2.1 (by decide)
    simp only [pyIntCore]
    rw [if_neg hneg, if_neg hpos,
      if_pos (pyDigits_of_digits (List.cons_ne_nil c rest) hall),
      filter_of_digits hall]

theorem splitOnChar_no_sep {y : List Char} (hy : '/' ∉ y) :
    splitOnChar '/' y = [y] := by
  induction y with
  | nil => rfl
  | cons c cs ih =>
    have hc : ¬(c = '/') := fun h => hy (h ▸ List.mem_cons_self c cs)
    have hcs : '/' ∉ cs := fun h => hy (List.mem_cons_of_mem c h)
    simp only [splitOnChar, if_neg hc, ih hcs]

theorem splitOnChar_append {m y : List Char} (hm : '/' ∉ m) :
    splitOnChar '/' (m ++ '/' :: y) = m :: splitOnChar '/' y := by
  induction m with
  | nil => simp [splitOnChar]
  | cons c cs ih =>
    have hc : ¬(c = '/') := fun h => hm (h ▸ List.mem_cons_self c cs)
    have hcs : '/' ∉ cs := fun h => hm (List.mem_cons_of_mem c h)
    simp only [List.cons_append, splitOnChar, if_neg hc, List.append_eq]
    rw [ih hcs]

/-! Claim theorems. -/

/-- Claim C1: for every operation (get_customer_details, add_bank_debit,
add_card_debit, add_payment, clear_schedule, edit_customer_bank_account,
edit_customer_credit_card), when the remote call completes and the
response's `Data` field is falsy, the operation fails by raising the
gateway-error kind (`EzidebitError`) whose message is exactly the response's
`ErrorMessage` field value, unmodified. -/
theorem falsy_data_raises_error_message_verbatim
    (resp : EziResponse) (user : User)
    (user_id payment_ref due_date acct_name bsb acct_number card_name
      card_number card_expiry ezi_id wsdl key update_by : String)
    (cents month year : Int)
    (hdata : truthy resp.Data = false)
    (hparse : parse_card_expiry card_expiry = .ok (month, year)) :
    get_customer_details user_id wsdl key .ok (fun _ => .ok resp) =
        .error (.ezidebitError resp.ErrorMessage) ∧
    add_bank_debit user payment_ref cents due_date acct_name bsb acct_number
        wsdl key .ok (fun _ => .ok resp) =
        .error (.ezidebitError resp.ErrorMessage) ∧
    add_card_debit user payment_ref cents due_date card_name card_number
        card_expiry wsdl key .ok (fun _ => .ok resp) =
        .error (.ezidebitError resp.ErrorMessage) ∧
    add_payment user payment_ref cents due_date wsdl key .ok .ok
        (fun _ => .ok resp) = .error (.ezidebitError resp.ErrorMessage) ∧
    clear_schedule ezi_id wsdl key .ok .ok (fun _ => .ok resp) =
        .error (.ezidebitError resp.ErrorMessage) ∧
    edit_customer_bank_account user_id acct_name bsb acct_number wsdl key
        update_by .ok .ok (fun _ => .ok resp) =
        .error (.ezidebitError resp.ErrorMessage) ∧
    edit_customer_credit_card user_id card_name card_number card_expiry wsdl
        key update_by .ok .ok (fun _ => .ok resp) =
        .error (.ezidebitError resp.ErrorMessage) := by
  refine ⟨?_, ?_, ?_, ?_, ?_, ?_, ?_⟩ <;>
    simp [get_customer_details, add_bank_debit, add_card_debit, add_payment,
      clear_schedule, edit_customer_bank_account, edit_customer_credit_card,
      EzidebitClient_run, EzidebitClient_enter, CallResult.toExcept, hparse,
      hdata]

/-- Witness for C1 at a concrete falsy response and concrete inputs. -/
theorem falsy_data_raises_error_message_verbatim_witness :
    get_customer_details "user-1" "wsdl" "key" .ok
        (fun _ => .ok ⟨SudsVal.pyNone, "Invalid DigitalKey."⟩) =
      .error (.ezidebitError "Invalid DigitalKey.") :=
  (falsy_data_raises_error_message_verbatim
    ⟨SudsVal.pyNone, "Invalid DigitalKey."⟩ ⟨"u", "l", "f", "e"⟩
    "user-1" "ref" "2026-01-01" "acct" "bsb" "num" "CN" "4111" "04/27" "ezi"
    "wsdl" "key" "admin" 100 4 2027 (by decide) (by decide)).1

/-- Claim C3: for every operation, when the remote response's `Data` field is
truthy, the operation returns successfully without raising:
get_customer_details returns the response's `Data` field contents unchanged,
and every mutation-only operation returns nothing. -/
theorem truthy_data_returns_payload
    (resp : EziResponse) (user : User)
    (user_id payment_ref due_date acct_name bsb acct_number card_name
      card_number card_expiry ezi_id wsdl key update_by : String)
    (cents month year : Int)
    (hdata : truthy resp.Data = true)
    (hparse : parse_card_expiry card_expiry = .ok (month, year)) :
    get_customer_details user_id wsdl key .ok (fun _ => .ok resp) =
        .ok resp.Data ∧
    add_bank_debit user payment_ref cents due_date acct_name bsb acct_number
        wsdl key .ok (fun _ => .ok resp) = .ok () ∧
    add_card_debit user payment_ref cents due_date card_name card_number
        card_expiry wsdl key .ok (fun _ => .ok resp) = .ok () ∧
    add_payment user payment_ref cents due_date wsdl key .ok .ok
        (fun _ => .ok resp) = .ok () ∧
    clear_schedule ezi_id wsdl key .ok .ok (fun _ => .ok resp) = .ok () ∧
    edit_customer_bank_account user_id acct_name bsb acct_number wsdl key
        update_by .ok .ok (fun _ => .ok resp) = .ok () ∧
    edit_customer_credit_card user_id card_name card_number card_expiry wsdl
        key update_by .ok .ok (fun _ => .ok resp) = .ok () := by
  refine ⟨?_, ?_, ?_, ?_, ?_, ?_, ?_⟩ <;>
    simp [get_customer_details, add_bank_debit, add_card_debit, add_payment,
      clear_schedule, edit_customer_bank_account, edit_customer_credit_card,
      EzidebitClient_run, EzidebitClient_enter, CallResult.toExcept, hparse,
      hdata]

/-- Witness for C3 at a concrete truthy response and concrete inputs. -/
theorem truthy_data_returns_payload_witness :
    get_customer_details "user-1" "wsdl" "key" .ok
        (fun _ => .ok ⟨SudsVal.obj [("CustomerName", "A")], ""⟩) =
      .ok (SudsVal.obj [("CustomerName", "A")]) :=
  (truthy_data_returns_payload
    ⟨SudsVal.obj [("CustomerName", "A")], ""⟩ ⟨"u", "l", "f", "e"⟩
    "user-1" "ref" "2026-01-01" "acct" "bsb" "num" "CN" "4111" "04/27" "ezi"
    "wsdl" "key" "admin" 100 4 2027 (by decide) (by decide)).1

/-- Claim C2 counterexample: the fixed user-facing message the code raises on
a connection failure is `"Could not connect to Ezidebit payment service."`,
not `"Could not connect to payment service"` as the claim states; moreover a
strict `URLError` subclass (an `HTTPError`) raised during the call propagates
with its raw transport text, so that text can appear in the raised error. -/
theorem connection_error_message_counterexample :
    get_customer_details "u" "w" "k" (.raises (.urlError "connection refused"))
        (fun _ => .ok ⟨.str "OK", ""⟩) =
      .error (.ezidebitError CONNECTION_ERROR_MSG) ∧
    CONNECTION_ERROR_MSG ≠ "Could not connect to payment service" ∧
    get_customer_details "u" "w" "k" .ok
        (fun _ => .raises (.httpError "HTTP Error 502: Bad Gateway")) =
      .error (.httpError "HTTP Error 502: Bad Gateway") :=
  ⟨rfl, by decide, rfl⟩

/-- Claim C2 (amended): for every operation, when the client construction
raises any `URLError` (subclasses included), or the SOAP call raises exactly
`URLError`, the operation fails with the single error type (`EzidebitError`)
carrying the fixed message `"Could not connect to Ezidebit payment
service."`; the conclusion is the same for every transport exception text
`rawmsg`, so the raw transport text never appears in the raised message. -/
theorem connection_failure_fixed_message
    (e : PyExc) (he : isURLErrorInstance e = true) (user : User)
    (user_id payment_ref due_date acct_name bsb acct_number card_name
      card_number ezi_id wsdl key update_by rawmsg : String)
    (cents : Int) (service : Request → CallResult) :
    (get_customer_details user_id wsdl key (.raises e) service =
        .error (.ezidebitError CONNECTION_ERROR_MSG) ∧
      add_bank_debit user payment_ref cents due_date acct_name bsb acct_number
        wsdl key (.raises e) service =
        .error (.ezidebitError CONNECTION_ERROR_MSG) ∧
      add_card_debit user payment_ref cents due_date card_name card_number
        "04/27" wsdl key (.raises e) service =
        .error (.ezidebitError CONNECTION_ERROR_MSG) ∧
      add_payment user payment_ref cents due_date wsdl key (.raises e) .ok
        service = .error (.ezidebitError CONNECTION_ERROR_MSG) ∧
      clear_schedule ezi_id wsdl key (.raises e) .ok service =
        .error (.ezidebitError CONNECTION_ERROR_MSG) ∧
      edit_customer_bank_account user_id acct_name bsb acct_number wsdl key
        update_by (.raises e) .ok service =
        .error (.ezidebitError CONNECTION_ERROR_MSG) ∧
      edit_customer_credit_card user_id card_name card_number "04/27" wsdl key
        update_by (.raises e) .ok service =
        .error (.ezidebitError CONNECTION_ERROR_MSG)) ∧
    (get_customer_details user_id wsdl key .ok
        (fun _ => .raises (.urlError rawmsg)) =
        .error (.ezidebitError CONNECTION_ERROR_MSG) ∧
      add_bank_debit user payment_ref cents due_date acct_name bsb acct_number
        wsdl key .ok (fun _ => .raises (.urlError rawmsg)) =
        .error (.ezidebitError CONNECTION_ERROR_MSG) ∧
      add_card_debit user payment_ref cents due_date card_name card_number
        "04/27" wsdl key .ok (fun _ => .raises (.urlError rawmsg)) =
        .error (.ezidebitError CONNECTION_ERROR_MSG) ∧
      add_payment user payment_ref cents due_date wsdl key .ok .ok
        (fun _ => .raises (.urlError rawmsg)) =
        .error (.ezidebitError CONNECTION_ERROR_MSG) ∧
      clear_schedule ezi_id wsdl key .ok .ok
        (fun _ => .raises (.urlError rawmsg)) =
        .error (.ezidebitError CONNECTION_ERROR_MSG) ∧
      edit_customer_bank_account user_id acct_name bsb acct_number wsdl key
        update_by .ok .ok (fun _ => .raises (.urlError rawmsg)) =
        .error (.ezidebitError CONNECTION_ERROR_MSG) ∧
      edit_customer_credit_card user_id card_name card_number "04/27" wsdl key
        update_by .ok .ok (fun _ => .raises (.urlError rawmsg)) =
        .error (.ezidebitError CONNECTION_ERROR_MSG)) := by
  constructor <;> refine ⟨?_, ?_, ?_, ?_, ?_, ?_, ?_⟩ <;>
    simp [get_customer_details, add_bank_debit, add_card_debit, add_payment,
      clear_schedule, edit_customer_bank_account, edit_customer_credit_card,
      EzidebitClient_run, EzidebitClient_enter, CallResult.toExcept, he,
      isURLErrorExact, parse_card_expiry, parse_card_expiry_parts,
      splitOnChar, pyInt, pyIntCore, pyStrip, pyDigits, digitsTail,
      isPySpace, digitsVal]

/-- Witness for the amended C2 at a concrete `URLError` and concrete inputs. -/
theorem connection_failure_fixed_message_witness :
    get_customer_details "user-1" "wsdl" "key"
        (.raises (.urlError "[Errno 111] Connection refused"))
        (fun _ => .ok ⟨.str "OK", ""⟩) =
      .error (.ezidebitError CONNECTION_ERROR_MSG) :=
  ((connection_failure_fixed_message (.urlError "[Errno 111] Connection refused")
    (by decide) ⟨"u", "l", "f", "e"⟩ "user-1" "ref" "2026-01-01" "acct" "bsb"
    "num" "CN" "4111" "ezi" "wsdl" "key" "admin" "timed out" 100
    (fun _ => .ok ⟨.str "OK", ""⟩)).1).1

/-- Claim C4: for add_card_debit and edit_customer_credit_card, the
card_expiry string `"MM/YY"` is parsed before transmission into a month and
a four-digit `20YY` year; in particular `"04/27"` parses to month 4 and year
2027, and both operations' requests then carry
`CreditCardExpiryMonth = 4` and `CreditCardExpiryYear = 2027`. -/
theorem card_expiry_parsed_to_month_and_four_digit_year :
    parse_card_expiry "04/27" = .ok (4, 2027) ∧
    (∀ (user : User) (payment_ref due_date card_name card_number key : String)
        (cents : Int),
      ("CreditCardExpiryMonth", FieldVal.int 4) ∈
          (add_card_debit_request user payment_ref cents due_date card_name
            card_number 4 2027 key).fields ∧
      ("CreditCardExpiryYear", FieldVal.int 2027) ∈
          (add_card_debit_request user payment_ref cents due_date card_name
            card_number 4 2027 key).fields) ∧
    (∀ (user_id card_name card_number key update_by : String),
      ("CreditCardExpiryMonth", FieldVal.int 4) ∈
          (edit_customer_credit_card_request user_id card_name card_number 4
            2027 key update_by).fields ∧
      ("CreditCardExpiryYear", FieldVal.int 2027) ∈
          (edit_customer_credit_card_request user_id card_name card_number 4
            2027 key update_by).fields) := by
  refine ⟨by decide, ?_, ?_⟩ <;> intros <;> constructor <;>
    simp [add_card_debit_request, edit_customer_credit_card_request]

/-- Claim C6: for every operation and every input, each required field for
which the caller supplies no value is still present in the outgoing request
with an empty-string value, and the operation's full expected field set (in
source order) is transmitted with no field omitted. -/
theorem empty_fields_transmitted_not_omitted
    (user : User)
    (user_id payment_ref due_date acct_name bsb acct_number card_name
      card_number ezi_id key update_by : String) (cents month year : Int) :
    ((get_customer_details_request user_id key).fields.map Prod.fst =
        ["DigitalKey", "EziDebitCustomerID", "YourSystemReference"] ∧
      ("EziDebitCustomerID", FieldVal.str "") ∈
        (get_customer_details_request user_id key).fields) ∧
    ((add_bank_debit_request user payment_ref cents due_date acct_name bsb
          acct_number key).fields.map Prod.fst =
        ["DigitalKey", "YourSystemReference", "YourGeneralReference",
          "LastName", "FirstName", "EmailAddress", "MobilePhoneNumber",
          "PaymentReference", "BankAccountName", "BankAccountBSB",
          "BankAccountNumber", "PaymentAmountInCents", "DebitDate",
          "SmsPaymentReminder", "SmsFailedNotification", "SmsExpiredCard"] ∧
      ("YourGeneralReference", FieldVal.str "") ∈
        (add_bank_debit_request user payment_ref cents due_date acct_name bsb
          acct_number key).fields ∧
      ("MobilePhoneNumber", FieldVal.str "") ∈
        (add_bank_debit_request user payment_ref cents due_date acct_name bsb
          acct_number key).fields) ∧
    ((add_card_debit_request user payment_ref cents due_date card_name
          card_number month year key).fields.map Prod.fst =
        ["DigitalKey", "YourSystemReference", "YourGeneralReference",
          "LastName", "FirstName", "EmailAddress", "MobilePhoneNumber",
          "PaymentReference", "NameOnCreditCard", "CreditCardNumber",
          "CreditCardExpiryYear", "CreditCardExpiryMonth",
          "PaymentAmountInCents", "DebitDate", "SmsPaymentReminder",
          "SmsFailedNotification", "SmsExpiredCard"] ∧
      ("YourGeneralReference", FieldVal.str "") ∈
        (add_card_debit_request user payment_ref cents due_date card_name
          card_number month year key).fields ∧
      ("MobilePhoneNumber", FieldVal.str "") ∈
        (add_card_debit_request user payment_ref cents due_date card_name
          card_number month year key).fields) ∧
    ((add_payment_request user payment_ref cents due_date key).fields.map
          Prod.fst =
        ["DigitalKey", "EziDebitCustomerID", "YourSystemReference",
          "DebitDate", "PaymentAmountInCents", "PaymentReference"] ∧
      ("EziDebitCustomerID", FieldVal.str "") ∈
        (add_payment_request user payment_ref cents due_date key).fields) ∧
    ((clear_schedule_request ezi_id key).fields.map Prod.fst =
        ["DigitalKey", "EziDebitCustomerID", "YourSystemReference",
          "KeepManualPayments"] ∧
      ("YourSystemReference", FieldVal.str "") ∈
        (clear_schedule_request ezi_id key).fields) ∧
    ((edit_customer_bank_account_request user_id acct_name bsb acct_number key
          update_by).fields.map Prod.fst =
        ["DigitalKey", "EziDebitCustomerID", "BankAccountName",
          "BankAccountBSB", "BankAccountNumber", "YourSystemReference",
          "Reactivate", "Username"] ∧
      ("EziDebitCustomerID", FieldVal.str "") ∈
        (edit_customer_bank_account_request user_id acct_name bsb acct_number
          key update_by).fields) ∧
    ((edit_customer_credit_card_request user_id card_name card_number month
          year key update_by).fields.map Prod.fst =
        ["DigitalKey", "EziDebitCustomerID", "NameOnCreditCard",
          "CreditCardNumber", "CreditCardExpiryYear", "CreditCardExpiryMonth",
          "YourSystemReference", "Reactivate", "Username"] ∧
      ("EziDebitCustomerID", FieldVal.str "") ∈
        (edit_customer_credit_card_request user_id card_name card_number month
          year key update_by).fields) := by
  refine ⟨⟨rfl, ?_⟩, ⟨rfl, ?_, ?_⟩, ⟨rfl, ?_, ?_⟩, ⟨rfl, ?_⟩, ⟨rfl, ?_⟩,
    ⟨rfl, ?_⟩, ⟨rfl, ?_⟩⟩ <;>
    simp [get_customer_details_request, add_bank_debit_request,
      add_card_debit_request, add_payment_request, clear_schedule_request,
      edit_customer_bank_account_request, edit_customer_credit_card_request]

/-- Claim C7: for every input, clear_schedule sends the literal fixed value
`KeepManualPayments = "NO"` in its outgoing `ClearSchedule` request; the
request does not depend on the wsdl argument and the field value does not
depend on any argument. -/
theorem clear_schedule_keep_manual_payments_no (ezi_id key : String) :
    (clear_schedule_request ezi_id key).operation = "ClearSchedule" ∧
    ("KeepManualPayments", FieldVal.str "NO") ∈
      (clear_schedule_request ezi_id key).fields ∧
    (∀ (wsdl wsdl2 : String) (connect connect2 : ConnectOutcome)
        (service : Request → CallResult),
      clear_schedule ezi_id wsdl key connect connect2 service =
        clear_schedule ezi_id wsdl2 key connect connect2 service) :=
  ⟨rfl, by simp [clear_schedule_request], fun _ _ _ _ _ => rfl⟩

/-- Claim C9: `EzidebitClient.__exit__` converts an exception raised in the
context-manager body to the fixed connection error exactly when its type is
identically `urllib.error.URLError`; a strict subclass such as `HTTPError`
is not converted and propagates to the caller with its original message. -/
theorem exit_converts_only_exact_urlerror :
    (∀ e : PyExc,
      EzidebitClient_run ConnectOutcome.ok (Except.error e : Except PyExc EziResponse) =
        if isURLErrorExact e then .error (.ezidebitError CONNECTION_ERROR_MSG)
        else .error e) ∧
    (∀ m : String,
      isURLErrorExact (PyExc.httpError m) = false ∧
      isURLErrorInstance (PyExc.httpError m) = true) ∧
    (∀ user_id wsdl key m : String,
      get_customer_details user_id wsdl key .ok
          (fun _ => .raises (.httpError m)) = .error (.httpError m)) :=
  ⟨fun _ => rfl, fun _ => ⟨rfl, rfl⟩, fun _ _ _ _ => rfl⟩

/-- Claim C5 counterexample: the card_expiry input `"04/"` has an empty year
part, which is non-numeric (`int('')` raises, here `pyInt "".data = none`),
so it is an invalid format in the claim's sense; yet the code silently
computes `int('20' + '') = 20` and both operations succeed instead of
failing with a validation error. -/
theorem invalid_expiry_silent_pass_counterexample :
    pyInt "".data = none ∧
    parse_card_expiry "04/" = .ok (4, 20) ∧
    add_card_debit ⟨"u", "l", "f", "e"⟩ "ref" 100 "2026-01-01" "N" "4111"
        "04/" "w" "k" .ok (fun _ => .ok ⟨.str "OK", ""⟩) = .ok () ∧
    edit_customer_credit_card "u1" "N" "4111" "04/" "w" "k" "" .ok .ok
        (fun _ => .ok ⟨.str "OK", ""⟩) = .ok () :=
  ⟨rfl, by decide, rfl, rfl⟩

/-- Claim C5 (amended): a card_expiry whose split on `'/'` does not yield
exactly two parts, or whose month part is not a valid int literal, or for
which `'20'` prepended to the year part is not a valid int literal, makes
add_card_debit and edit_customer_credit_card fail with the builtin
`ValueError` (the only validation failure the code produces) before any
transmission, for every transport oracle; but an empty (or whitespace-only)
year part is not rejected: `int('20' + part)` succeeds and the value passes
through silently. -/
theorem invalid_expiry_raises_value_error (s : String)
    (h : (splitOnChar '/' s.data).length ≠ 2 ∨
      ∃ m y, splitOnChar '/' s.data = [m, y] ∧
        (pyInt m = none ∨ pyInt ('2' :: '0' :: y) = none)) :
    ∃ msg, parse_card_expiry s = .error (.valueError msg) ∧
      (∀ (user : User)
          (payment_ref due_date card_name card_number wsdl key : String)
          (cents : Int) (connect : ConnectOutcome)
          (service : Request → CallResult),
        add_card_debit user payment_ref cents due_date card_name card_number s
          wsdl key connect service = .error (.valueError msg)) ∧
      (∀ (user_id card_name card_number wsdl key update_by : String)
          (connect connect2 : ConnectOutcome)
          (service : Request → CallResult),
        edit_customer_credit_card user_id card_name card_number s wsdl key
          update_by connect connect2 service = .error (.valueError msg)) := by
  obtain ⟨msg, hmsg⟩ : ∃ msg, parse_card_expiry s = .error (.valueError msg) := by
    rcases h with h | ⟨m, y, hsplit, hcase⟩
    · rcases hl : splitOnChar '/' s.data with _ | ⟨a, _ | ⟨b, _ | ⟨c, t⟩⟩⟩
      · exact ⟨_, by unfold parse_card_expiry; rw [hl]; rfl⟩
      · exact ⟨_, by unfold parse_card_expiry; rw [hl]; rfl⟩
      · rw [hl] at h; simp at h
      · exact ⟨_, by unfold parse_card_expiry; rw [hl]; rfl⟩
    · rcases hcase with hm | hy
      · exact ⟨_, by
          unfold parse_card_expiry
          rw [hsplit]
          simp only [parse_card_expiry_parts, hm]
          rfl⟩
      · rcases hpm : pyInt m with _ | mi
        · exact ⟨_, by
            unfold parse_card_expiry
            rw [hsplit]
            simp only [parse_card_expiry_parts, hpm]
            rfl⟩
        · exact ⟨_, by
            unfold parse_card_expiry
            rw [hsplit]
            simp only [parse_card_expiry_parts, hpm, hy]
            rfl⟩
  refine ⟨msg, hmsg, ?_, ?_⟩
  · intro user payment_ref due_date card_name card_number wsdl key cents
      connect service
    simp [add_card_debit, hmsg]
  · intro user_id card_name card_number wsdl key update_by connect connect2
      service
    simp [edit_customer_credit_card, hmsg]

/-- Witness for the amended C5 at the concrete input `"0427"` (no slash). -/
theorem invalid_expiry_raises_value_error_witness :
    ∃ msg, parse_card_expiry "0427" = .error (.valueError msg) ∧
      (∀ (user : User)
          (payment_ref due_date card_name card_number wsdl key : String)
          (cents : Int) (connect : ConnectOutcome)
          (service : Request → CallResult),
        add_card_debit user payment_ref cents due_date card_name card_number
          "0427" wsdl key connect service = .error (.valueError msg)) ∧
      (∀ (user_id card_name card_number wsdl key update_by : String)
          (connect connect2 : ConnectOutcome)
          (service : Request → CallResult),
        edit_customer_credit_card user_id card_name card_number "0427" wsdl
          key update_by connect connect2 service = .error (.valueError msg)) :=
  invalid_expiry_raises_value_error "0427" (Or.inl (by decide))

/-- Claim C8: connection-level failures and remote business failures raise
one and the same exception type (`EzidebitError`, here the single
constructor `PyExc.ezidebitError`); when the remote `ErrorMessage` happens
to equal the fixed connection message, the two failures produce literally
the same raised error, so a caller can only distinguish them by message
text. -/
theorem single_exception_type_for_both_failures
    (resp : EziResponse) (hdata : truthy resp.Data = false)
    (hmsg : resp.ErrorMessage = CONNECTION_ERROR_MSG)
    (user_id wsdl key rawmsg : String) (service : Request → CallResult) :
    get_customer_details user_id wsdl key (.raises (.urlError rawmsg)) service =
        .error (.ezidebitError CONNECTION_ERROR_MSG) ∧
    get_customer_details user_id wsdl key .ok (fun _ => .ok resp) =
        .error (.ezidebitError resp.ErrorMessage) ∧
    get_customer_details user_id wsdl key (.raises (.urlError rawmsg)) service =
      get_customer_details user_id wsdl key .ok (fun _ => .ok resp) := by
  refine ⟨?_, ?_, ?_⟩ <;>
    simp [get_customer_details, EzidebitClient_run, EzidebitClient_enter,
      CallResult.toExcept, isURLErrorInstance, hdata, hmsg]

/-- Witness for C8: a transport failure and a business failure whose
`ErrorMessage` is the fixed connection string yield equal raised errors. -/
theorem single_exception_type_for_both_failures_witness :
    get_customer_details "u" "w" "k" (.raises (.urlError "timed out"))
        (fun _ => .ok ⟨.str "OK", ""⟩) =
      get_customer_details "u" "w" "k" .ok
        (fun _ => .ok ⟨SudsVal.pyNone,
          "Could not connect to Ezidebit payment service."⟩) :=
  (single_exception_type_for_both_failures
    ⟨SudsVal.pyNone, "Could not connect to Ezidebit payment service."⟩
    (by decide) (by decide) "u" "w" "k" "timed out"
    (fun _ => .ok ⟨.str "OK", ""⟩)).2.2

/-- Claim C10: card-expiry parsing performs no range or length validation:
for any two nonempty all-digit parts separated by a single `'/'`, the month
is `int` of the first part (including out-of-range values such as 13 or 0)
and the year is `int` of `'20'` concatenated with the second part regardless
of its length (so `"04/123"` yields year 20123). -/
theorem expiry_no_range_or_length_validation
    (m y : List Char) (hm1 : m ≠ []) (hm2 : m.all Char.isDigit = true)
    (hy1 : y ≠ []) (hy2 : y.all Char.isDigit = true) :
    parse_card_expiry (String.mk (m ++ '/' :: y)) =
        .ok ((digitsVal m : Int), (digitsVal ('2' :: '0' :: y) : Int)) ∧
    parse_card_expiry "13/27" = .ok (13, 2027) ∧
    parse_card_expiry "0/27" = .ok (0, 2027) ∧
    parse_card_expiry "04/123" = .ok (4, 20123) := by
  refine ⟨?_, by decide, by decide, by decide⟩
  have hms : '/' ∉ m := fun hin =>
    absurd (List.all_eq_true.mp hm2 _ hin) (by decide)
  have hys : '/' ∉ y := fun hin =>
    absurd (List.all_eq_true.mp hy2 _ hin) (by decide)
  have h20ne : ('2' :: '0' :: y) ≠ [] := List.cons_ne_nil _ _
  have h20all : ('2' :: '0' :: y).all Char.isDigit = true := by
    simp [List.all_cons, hy2]
  have hsm := pyInt_of_digits hm1 hm2
  have hsy := pyInt_of_digits h20ne h20all
  have hdata : (String.mk (m ++ '/' :: y)).data = m ++ '/' :: y := rfl
  unfold parse_card_expiry
  rw [hdata, splitOnChar_append hms, splitOnChar_no_sep hys]
  simp only [parse_card_expiry_parts, hsm, hsy]

/-- Witness for C10 at the concrete parts `04` and `123`. -/
theorem expiry_no_range_or_length_validation_witness :
    parse_card_expiry (String.mk (['0', '4'] ++ '/' :: ['1', '2', '3'])) =
      .ok ((digitsVal ['0', '4'] : Int),
        (digitsVal ('2' :: '0' :: ['1', '2', '3']) : Int)) :=
  (expiry_no_range_or_length_validation ['0', '4'] ['1', '2', '3']
    (by decide) (by decide) (by decide) (by decide)).1

end Ezi
